import Mathlib

/-!
Verification development for the IgniteShaderCompiler repository.

The definitions below are a shallow embedding of the compile-argument
synthesis and reflection-normalization core found in
`Source/ShaderCompiler.cpp`, `Source/ShaderCompilerCAPI.h`, the shared enum
header, and the C-API bridge translation unit.  External native libraries
(DXC, shaderc, SPIRV-Cross, D3D reflection) are modelled as opaque inputs:
the data their introspection calls would return is passed in explicitly, and
a failing library call is modelled as `Option.none`.  Machine integers
(`uint32_t`, `size_t`) are modelled as `Nat`; none of the embedded arithmetic
(byte offsets, strides, register shifts, popcounts) can overflow 32 bits for
the input sizes the program accepts, so no explicit wraparound is inserted.
-/

/-- `IGNITE_LogType` from the shared enum header. -/
inductive IGNITE_LogType
  | INFO
  | WARNING
  | ERROR
deriving DecidableEq, Repr

/-- `IGNITE_ShaderType` from the shared enum header. -/
inductive IGNITE_ShaderType
  | VERTEX
  | PIXEL
  | GEOMETRY
  | COMPUTE
  | TESSELLATION
deriving DecidableEq, Repr

/-- `IGNITE_ShaderPlatformType` from the shared enum header. -/
inductive IGNITE_ShaderPlatformType
  | DXBC
  | DXIL
  | SPIRV
deriving DecidableEq, Repr

/-- `IGNITE_OptimizationLevel` from the shared enum header. -/
inductive IGNITE_OptimizationLevel
  | OPT_LEVEL_0
  | OPT_LEVEL_1
  | OPT_LEVEL_2
  | OPT_LEVEL_3
deriving DecidableEq, Repr

/-- `IGNITE_ResultCode` from the shared enum header. -/
inductive IGNITE_ResultCode
  | OK
  | INVALID_ARGUMENT
  | UNSUPPORTED_PLATFORM
  | COMPILATION_FAILED
  | INTERNAL_ERROR
deriving DecidableEq, Repr

/-- `IGNITE_VertexElementFormat` from the shared enum header, constructors in
the declaration order of the C enum (so `formatValue` below matches the C
integer values). -/
inductive IGNITE_VertexElementFormat
  | INVALID
  | INT | INT2 | INT3 | INT4
  | UINT | UINT2 | UINT3 | UINT4
  | FLOAT | FLOAT2 | FLOAT3 | FLOAT4
  | BYTE2 | BYTE4
  | UBYTE2 | UBYTE4
  | BYTE2_NORM | BYTE4_NORM
  | UBYTE2_NORM | UBYTE4_NORM
  | SHORT2 | SHORT4
  | USHORT2 | USHORT4
  | SHORT2_NORM | SHORT4_NORM
  | USHORT2_NORM | USHORT4_NORM
  | HALF2 | HALF4
deriving DecidableEq, Repr

/-- The C integer value of each `IGNITE_VertexElementFormat` enumerator
(declaration order, starting at 0). -/
def formatValue : IGNITE_VertexElementFormat → Nat
  | .INVALID => 0
  | .INT => 1 | .INT2 => 2 | .INT3 => 3 | .INT4 => 4
  | .UINT => 5 | .UINT2 => 6 | .UINT3 => 7 | .UINT4 => 8
  | .FLOAT => 9 | .FLOAT2 => 10 | .FLOAT3 => 11 | .FLOAT4 => 12
  | .BYTE2 => 13 | .BYTE4 => 14
  | .UBYTE2 => 15 | .UBYTE4 => 16
  | .BYTE2_NORM => 17 | .BYTE4_NORM => 18
  | .UBYTE2_NORM => 19 | .UBYTE4_NORM => 20
  | .SHORT2 => 21 | .SHORT4 => 22
  | .USHORT2 => 23 | .USHORT4 => 24
  | .SHORT2_NORM => 25 | .SHORT4_NORM => 26
  | .USHORT2_NORM => 27 | .USHORT4_NORM => 28
  | .HALF2 => 29 | .HALF4 => 30

/-- `D3D_REGISTER_COMPONENT_TYPE`: the constructors the source switches on,
plus `UNKNOWN` standing for every other value (all hit the `default` path). -/
inductive D3DRegisterComponentType
  | UNKNOWN
  | UINT32
  | SINT32
  | FLOAT32
deriving DecidableEq, Repr

/-- `IGNITE_Map3DComponent` (family A / DXIL type mapper) from
`Source/ShaderCompiler.cpp`. -/
def IGNITE_Map3DComponent (componentType : D3DRegisterComponentType)
    (elementCount : Nat) : IGNITE_VertexElementFormat :=
  match componentType with
  | .FLOAT32 =>
    match elementCount with
    | 1 => .FLOAT
    | 2 => .FLOAT2
    | 3 => .FLOAT2
    | 4 => .FLOAT3
    | _ => .INVALID
  | .SINT32 =>
    match elementCount with
    | 1 => .INT
    | 2 => .INT2
    | 3 => .INT3
    | 4 => .INT4
    | _ => .INVALID
  | .UINT32 =>
    match elementCount with
    | 1 => .UINT
    | 2 => .UINT2
    | 3 => .UINT3
    | 4 => .UINT4
    | _ => .INVALID
  | .UNKNOWN => .INVALID

/-- `spvc_basetype`: the three constructors the source compares against, plus
`OTHER` standing for every other SPIRV-Cross base type (all fall through to
the final `INVALID` return). -/
inductive SpvcBasetype
  | FP32
  | INT32
  | UINT32
  | OTHER
deriving DecidableEq, Repr

/-- The data `IGNITE_MapSpvcType` reads from a non-null `spvc_type` handle:
base type, vector size and column count. -/
structure SpvType where
  baseType : SpvcBasetype
  vecSize : Nat
  columns : Nat
deriving DecidableEq, Repr

/-- `IGNITE_MapSpvcType` (family B / SPIR-V type mapper) from
`Source/ShaderCompiler.cpp`; `none` models a null `spvc_type` handle. -/
def IGNITE_MapSpvcType (typeHandle : Option SpvType) : IGNITE_VertexElementFormat :=
  match typeHandle with
  | none => .INVALID
  | some t =>
    if t.columns ≠ 1 then .INVALID
    else if t.baseType = .FP32 then
      match t.vecSize with
      | 1 => .FLOAT
      | 2 => .FLOAT2
      | 3 => .FLOAT3
      | 4 => .FLOAT4
      | _ => .INVALID
    else if t.baseType = .INT32 then
      match t.vecSize with
      | 1 => .INT
      | 2 => .INT2
      | 3 => .INT3
      | 4 => .INT4
      | _ => .INVALID
    else if t.baseType = .UINT32 then
      match t.vecSize with
      | 1 => .UINT
      | 2 => .UINT2
      | 3 => .UINT3
      | 4 => .UINT4
      | _ => .INVALID
    else .INVALID

/-- `shaderc_optimization_level` values the source maps onto. -/
inductive ShadercOptimizationLevel
  | zero
  | size
  | performance
deriving DecidableEq, Repr

/-- `IGNITE_ShaderToShaderCOptLevel` from `Source/ShaderCompiler.cpp`:
level 0 maps to `zero`, levels 1-3 (and the default case) collapse to
`performance`. -/
def IGNITE_ShaderToShaderCOptLevel : IGNITE_OptimizationLevel → ShadercOptimizationLevel
  | .OPT_LEVEL_0 => .zero
  | .OPT_LEVEL_1 => .performance
  | .OPT_LEVEL_2 => .performance
  | .OPT_LEVEL_3 => .performance

/-- `IGNITE_ShaderTypeToProfile` from the shared enum header. -/
def IGNITE_ShaderTypeToProfile : IGNITE_ShaderType → String
  | .VERTEX => "vs"
  | .PIXEL => "ps"
  | .GEOMETRY => "gs"
  | .COMPUTE => "cs"
  | .TESSELLATION => "ts"

/-- A dispatched log message: severity plus text (the arguments the source
passes to `DispatchLog`). -/
abbrev LogMsg := IGNITE_LogType × String

/-- `ignite::VertexAttribute` from the compiler header. -/
structure VertexAttribute where
  name : String := ""
  format : IGNITE_VertexElementFormat := .INVALID
  bufferIndex : Nat := 0
  offset : Nat := 0
  elementStride : Nat := 0
deriving DecidableEq, Repr

/-- `ignite::ShaderResourceInfo` from the compiler header. -/
structure ShaderResourceInfo where
  name : String := ""
  id : Nat := 0
  set : Nat := 0
  binding : Nat := 0
  count : Nat := 1
deriving DecidableEq, Repr

/-- `ignite::ShaderStageIOInfo` from the compiler header. -/
structure ShaderStageIOInfo where
  name : String := ""
  id : Nat := 0
  location : Nat := 0
  format : IGNITE_VertexElementFormat := .INVALID
  vecSize : Nat := 0
  columns : Nat := 0
deriving DecidableEq, Repr

/-- `ignite::ShaderPushConstantInfo` from the compiler header. -/
structure ShaderPushConstantInfo where
  name : String := ""
  size : Nat := 0
deriving DecidableEq, Repr

/-- `ignite::ShaderReflectionInfo` from the compiler header; all lists and
count fields default to empty/zero exactly as the C++ member initializers
and `= {}` value-initialization do. -/
structure ShaderReflectionInfo where
  shaderType : IGNITE_ShaderType := .VERTEX
  numUniformBuffers : Nat := 0
  numSamplers : Nat := 0
  numStorageTextures : Nat := 0
  numStorageBuffers : Nat := 0
  numSeparateSamplers : Nat := 0
  numSeparateImages : Nat := 0
  numPushConstants : Nat := 0
  numStageInputs : Nat := 0
  numStageOutputs : Nat := 0
  uniformBuffers : List ShaderResourceInfo := []
  sampledImages : List ShaderResourceInfo := []
  storageImages : List ShaderResourceInfo := []
  storageBuffers : List ShaderResourceInfo := []
  separateSamplers : List ShaderResourceInfo := []
  separateImages : List ShaderResourceInfo := []
  pushConstants : List ShaderPushConstantInfo := []
  stageInputs : List ShaderStageIOInfo := []
  stageOutputs : List ShaderStageIOInfo := []
  vertexAttributes : List VertexAttribute := []
deriving DecidableEq, Repr

/-- The comparison key both reflection paths sort stage-IO lists by:
`a.location < b.location` passed to `std::sort`, modelled as the matching
total preorder on `location`. -/
def ioLE (a b : ShaderStageIOInfo) : Prop := a.location ≤ b.location

instance : DecidableRel ioLE := fun a b => Nat.decLe a.location b.location

instance : IsTotal ShaderStageIOInfo ioLE := ⟨fun a b => Nat.le_total a.location b.location⟩

instance : IsTrans ShaderStageIOInfo ioLE := ⟨fun _ _ _ hab hbc => Nat.le_trans hab hbc⟩

/-- One entry of an `spvc_reflected_resource` list together with the
`DescriptorSet` and `Binding` decorations `spvc_compiler_get_decoration`
reports for it. -/
structure SpvReflectedResource where
  name : String
  id : Nat
  set : Nat
  binding : Nat
deriving DecidableEq, Repr

/-- One reflected push-constant block: its name and the result of the
`spvc_compiler_get_declared_struct_size` query (`none` models a null type
handle or a failing query, in which case the size stays 0). -/
structure SpvPushConstantBlock where
  name : String
  declaredSize : Option Nat
deriving DecidableEq, Repr

/-- One reflected stage-input/output variable: name, id, `Location`
decoration, and its type handle (`none` models a null handle, leaving the
zero-initialized vecSize/columns/format in place). -/
structure SpvStageVariable where
  name : String
  id : Nat
  location : Nat
  typeHandle : Option SpvType
deriving DecidableEq, Repr

/-- Everything `SPIRVReflect` reads from SPIRV-Cross after a successful
parse: the per-category resource lists and the stage-interface lists. -/
structure SpvModule where
  uniformBuffers : List SpvReflectedResource := []
  sampledImages : List SpvReflectedResource := []
  storageImages : List SpvReflectedResource := []
  storageBuffers : List SpvReflectedResource := []
  separateSamplers : List SpvReflectedResource := []
  separateImages : List SpvReflectedResource := []
  pushConstants : List SpvPushConstantBlock := []
  stageInputs : List SpvStageVariable := []
  stageOutputs : List SpvStageVariable := []
deriving DecidableEq, Repr

/-- The body of the `collectBindings` lambda in `SPIRVReflect`: each
reflected resource becomes a `ShaderResourceInfo` with set/binding read from
its decorations and array count defaulted to 1. -/
def collectBindings (list : List SpvReflectedResource) : List ShaderResourceInfo :=
  list.map fun r => { name := r.name, id := r.id, set := r.set, binding := r.binding, count := 1 }

/-- The per-variable body of the `collectStageIO` lambda in `SPIRVReflect`:
location from the decoration; vecSize/columns/format from the type handle
when it is non-null, otherwise the zero-initialized defaults. -/
def toStageEntry (v : SpvStageVariable) : ShaderStageIOInfo :=
  match v.typeHandle with
  | none => { name := v.name, id := v.id, location := v.location }
  | some t =>
    { name := v.name, id := v.id, location := v.location,
      vecSize := t.vecSize, columns := t.columns,
      format := IGNITE_MapSpvcType (some t) }

/-- The rest of the `collectStageIO` lambda: build all entries, then
`std::sort` ascending by location. -/
def collectStageEntries (list : List SpvStageVariable) : List ShaderStageIOInfo :=
  List.insertionSort ioLE (list.map toStageEntry)

/-- Size in bytes the vertex-layout loop advances by for one stage input:
4 bytes (`componentSize`) times the vector width, minimum 1
(`input.vecSize > 0 ? input.vecSize : 1`). -/
def attrSizeOfInput (input : ShaderStageIOInfo) : Nat :=
  4 * (if input.vecSize > 0 then input.vecSize else 1)

/-- The vertex-layout loop of `SPIRVReflect` (lines walking
`info.stageInputs` for the vertex stage): returns the emitted attributes
(with `elementStride` still 0), the final accumulated offset, and the
warning log messages for skipped inputs. -/
def vertexLoopSpv (offset : Nat) :
    List ShaderStageIOInfo → List VertexAttribute × Nat × List LogMsg
  | [] => ([], offset, [])
  | input :: rest =>
    if input.format = .INVALID then
      let r := vertexLoopSpv offset rest
      (r.1, r.2.1,
        (IGNITE_LogType.WARNING,
          "SPIRV reflection: unsupported vertex attribute format at location "
            ++ toString input.location) :: r.2.2)
    else
      let r := vertexLoopSpv (offset + attrSizeOfInput input) rest
      ({ name := input.name, format := input.format, bufferIndex := 0,
         offset := offset, elementStride := 0 } :: r.1, r.2.1, r.2.2)

/-- The final pass of the vertex-layout builder: every emitted attribute's
`elementStride` is set to the final accumulated offset. -/
def setStride (stride : Nat) (attrs : List VertexAttribute) : List VertexAttribute :=
  attrs.map fun a => { a with elementStride := stride }

/-- The size-alignment error `SPIRVReflect` dispatches for a blob whose byte
length is not a multiple of 4. -/
def spvSizeErrorLog : LogMsg :=
  (IGNITE_LogType.ERROR, "SPIRV reflection failed: shader blob size is not aligned to 4 bytes.")

/-- `ShaderReflection::SPIRVReflect` from `Source/ShaderCompiler.cpp`.
`shaderCode` is the byte vector; `backend` is the outcome of the
SPIRV-Cross pipeline (`none` collapses the four early failures -
context creation, parse, compiler creation, resource creation - each of
which logs an error and returns the still-empty info; their log texts differ
in the source but the returned info is identical).  Returns the filled
`ShaderReflectionInfo` plus the dispatched log messages from the vertex
layout loop and the completion log. -/
def SPIRVReflect (type : IGNITE_ShaderType) (shaderCode : List Nat)
    (backend : Option SpvModule) : ShaderReflectionInfo × List LogMsg :=
  let info0 : ShaderReflectionInfo := { shaderType := type }
  if shaderCode.length % 4 ≠ 0 then
    (info0, [spvSizeErrorLog])
  else
    match backend with
    | none =>
      (info0, [(IGNITE_LogType.ERROR, "SPIRV reflection failed: could not parse SPIRV blob.")])
    | some m =>
      let uniformBuffers := collectBindings m.uniformBuffers
      let sampledImages := collectBindings m.sampledImages
      let storageImages := collectBindings m.storageImages
      let storageBuffers := collectBindings m.storageBuffers
      let separateSamplers := collectBindings m.separateSamplers
      let separateImages := collectBindings m.separateImages
      let pushConstants := m.pushConstants.map fun pc =>
        ({ name := pc.name, size := pc.declaredSize.getD 0 } : ShaderPushConstantInfo)
      let stageInputs := collectStageEntries m.stageInputs
      let stageOutputs := collectStageEntries m.stageOutputs
      let vres :=
        if type = .VERTEX then vertexLoopSpv 0 stageInputs else ([], 0, [])
      let vertexAttributes := setStride vres.2.1 vres.1
      ({ shaderType := type,
         numUniformBuffers := uniformBuffers.length,
         numSamplers := sampledImages.length,
         numStorageTextures := storageImages.length,
         numStorageBuffers := storageBuffers.length,
         numSeparateSamplers := separateSamplers.length,
         numSeparateImages := separateImages.length,
         numPushConstants := pushConstants.length,
         numStageInputs := stageInputs.length,
         numStageOutputs := stageOutputs.length,
         uniformBuffers := uniformBuffers,
         sampledImages := sampledImages,
         storageImages := storageImages,
         storageBuffers := storageBuffers,
         separateSamplers := separateSamplers,
         separateImages := separateImages,
         pushConstants := pushConstants,
         stageInputs := stageInputs,
         stageOutputs := stageOutputs,
         vertexAttributes := vertexAttributes },
       vres.2.2 ++ [(IGNITE_LogType.INFO, "SPIRV reflection complete")])

/-- The population-count loop the source uses on signature-parameter
component masks (`while (mask != 0) { count += mask & 1; mask >>= 1; }`). -/
def popCount : Nat → Nat
  | 0 => 0
  | n + 1 => (n + 1) % 2 + popCount ((n + 1) / 2)
decreasing_by exact Nat.div_lt_self (Nat.succ_pos n) (by decide)

/-- The clamp applied right after the popcount loop:
`(count > 0) ? count : 1`. -/
def popCountMin1 (mask : Nat) : Nat :=
  if popCount mask > 0 then popCount mask else 1

/-- `D3D_SHADER_INPUT_TYPE`: constructors the classification switch names,
plus the remaining enumerators that all hit the `default` arm. -/
inductive D3DShaderInputType
  | CBUFFER | TBUFFER | TEXTURE | SAMPLER
  | UAV_RWTYPED | STRUCTURED | UAV_RWSTRUCTURED | BYTEADDRESS
  | UAV_RWBYTEADDRESS | UAV_APPEND_STRUCTURED | UAV_CONSUME_STRUCTURED
  | UAV_RWSTRUCTURED_WITH_COUNTER | RTACCELERATIONSTRUCTURE | UAV_FEEDBACKTEXTURE
deriving DecidableEq, Repr

/-- The fields `DXILReflect` reads from a `D3D12_SHADER_INPUT_BIND_DESC`. -/
structure D3DShaderInputBindDesc where
  name : String
  type : D3DShaderInputType
  bindPoint : Nat
  space : Nat
  bindCount : Nat
deriving DecidableEq, Repr

/-- The fields `DXILReflect` reads from a `D3D12_SHADER_BUFFER_DESC`
(only the name is used). -/
structure D3DShaderBufferDesc where
  name : String
deriving DecidableEq, Repr

/-- The fields `DXILReflect` reads from a `D3D12_SIGNATURE_PARAMETER_DESC`. -/
structure D3DSignatureParameterDesc where
  semanticName : String
  semanticIndex : Nat
  registerIndex : Nat
  mask : Nat
  componentType : D3DRegisterComponentType
deriving DecidableEq, Repr

/-- Everything `DXILReflect` reads from a successfully obtained
`ID3D12ShaderReflection` handle.  A `none` element models a per-index
introspection call that fails (`GetConstantBufferByIndex` returning null or
a `GetDesc`/`GetResourceBindingDesc`/`Get*ParameterDesc` call failing), which
the source skips with `continue`. -/
structure D3DReflectionData where
  constantBuffers : List (Option D3DShaderBufferDesc) := []
  boundResources : List (Option D3DShaderInputBindDesc) := []
  inputParameters : List (Option D3DSignatureParameterDesc) := []
  outputParameters : List (Option D3DSignatureParameterDesc) := []
deriving DecidableEq, Repr

/-- The linear scan resolving a constant buffer's binding: the first bound
resource whose desc read succeeds, whose type is `D3D_SIT_CBUFFER` and whose
name matches. -/
def findCBufferBind (boundResources : List (Option D3DShaderInputBindDesc))
    (nm : String) : Option D3DShaderInputBindDesc :=
  boundResources.findSome? fun ob =>
    ob.bind fun b => if b.type = .CBUFFER ∧ b.name = nm then some b else none

/-- The constant-buffer loop of `DXILReflect`: one uniform-buffer entry per
readable constant buffer, id = loop index, binding/set/count resolved by the
name scan over the bound-resource list (left at the zero-initialized
defaults, count 1, when no match is found). -/
def dxilUniformBuffers (r : D3DReflectionData) : List ShaderResourceInfo :=
  r.constantBuffers.enum.filterMap fun p =>
    p.2.map fun cb =>
      let base : ShaderResourceInfo := { name := cb.name, id := p.1 }
      match findCBufferBind r.boundResources cb.name with
      | some bd => { base with binding := bd.bindPoint, set := bd.space, count := bd.bindCount }
      | none => base

/-- The seven unordered-access kinds the classification switch collapses
into the storage-buffer category. -/
def isUAVStorageKind (t : D3DShaderInputType) : Bool :=
  t = .UAV_RWTYPED ∨ t = .UAV_RWSTRUCTURED ∨ t = .UAV_RWBYTEADDRESS ∨
    t = .UAV_APPEND_STRUCTURED ∨ t = .UAV_CONSUME_STRUCTURED ∨
    t = .UAV_RWSTRUCTURED_WITH_COUNTER ∨ t = .UAV_FEEDBACKTEXTURE

/-- The resource record the bound-resource loop builds before classifying:
id = loop index, binding/set/count from the bind desc. -/
def dxilBoundResource (i : Nat) (b : D3DShaderInputBindDesc) : ShaderResourceInfo :=
  { name := b.name, id := i, binding := b.bindPoint, set := b.space, count := b.bindCount }

/-- The bound-resource classification loop, restricted to one destination
category selected by `pick`.  The single pass of the source appends each
classified resource to exactly one of three destination vectors, so each
destination list equals this order-preserving filter. -/
def dxilClassified (r : D3DReflectionData) (pick : D3DShaderInputType → Bool) :
    List ShaderResourceInfo :=
  r.boundResources.enum.filterMap fun p =>
    p.2.bind fun b => if pick b.type then some (dxilBoundResource p.1 b) else none

/-- The semantic-name synthesis: the numeric suffix is appended only when
the semantic index is nonzero. -/
def semanticNameWithIndex (nm : String) (idx : Nat) : String :=
  nm ++ (if idx > 0 then toString idx else "")

/-- One signature parameter turned into a stage-IO entry: id = loop index,
location = register index, columns fixed at 1, vector width recovered by
popcounting the component mask, format via the family-A type mapper. -/
def dxilStageEntry (i : Nat) (p : D3DSignatureParameterDesc) : ShaderStageIOInfo :=
  { name := semanticNameWithIndex p.semanticName p.semanticIndex,
    id := i, location := p.registerIndex, columns := 1,
    vecSize := popCountMin1 p.mask,
    format := IGNITE_Map3DComponent p.componentType (popCountMin1 p.mask) }

/-- The signature-parameter loop: entries for every readable parameter, then
`std::sort` ascending by register index (stored in `location`). -/
def dxilStageEntries (params : List (Option D3DSignatureParameterDesc)) :
    List ShaderStageIOInfo :=
  List.insertionSort ioLE
    (params.enum.filterMap fun p => p.2.map fun d => dxilStageEntry p.1 d)

/-- The `InputAttribute` record the vertex branch of `DXILReflect` collects
per readable input parameter. -/
structure InputAttribute where
  registerIndex : Nat
  semanticName : String
  semanticIndex : Nat
  mask : Nat
  componentType : D3DRegisterComponentType
deriving DecidableEq, Repr

/-- Ordering key for the vertex-input sort: register index. -/
def attrLE (a b : InputAttribute) : Prop := a.registerIndex ≤ b.registerIndex

instance : DecidableRel attrLE := fun a b => Nat.decLe a.registerIndex b.registerIndex

instance : IsTotal InputAttribute attrLE := ⟨fun a b => Nat.le_total a.registerIndex b.registerIndex⟩

instance : IsTrans InputAttribute attrLE := ⟨fun _ _ _ hab hbc => Nat.le_trans hab hbc⟩

/-- The vertex-stage `inputs` vector of `DXILReflect` after its
`std::sort` by register index. -/
def dxilSortedVertexInputs (r : D3DReflectionData) : List InputAttribute :=
  List.insertionSort attrLE
    (r.inputParameters.filterMap fun op => op.map fun p =>
      { registerIndex := p.registerIndex, semanticName := p.semanticName,
        semanticIndex := p.semanticIndex, mask := p.mask,
        componentType := p.componentType })

/-- Byte size one vertex input contributes: 4 bytes times the popcounted
component width (minimum 1). -/
def dxilAttrSize (input : InputAttribute) : Nat :=
  4 * popCountMin1 input.mask

/-- The vertex-layout loop of `DXILReflect` over the sorted inputs: emitted
attributes (stride still 0), final accumulated offset, and warning logs for
inputs whose mapped format is invalid. -/
def vertexLoopDxil (offset : Nat) :
    List InputAttribute → List VertexAttribute × Nat × List LogMsg
  | [] => ([], offset, [])
  | input :: rest =>
    let elementCount := popCountMin1 input.mask
    let elementFormat := IGNITE_Map3DComponent input.componentType elementCount
    if elementFormat = .INVALID then
      let r := vertexLoopDxil offset rest
      (r.1, r.2.1,
        (IGNITE_LogType.WARNING,
          "DXIL reflection: unsupported vertex input format for semantic "
            ++ input.semanticName) :: r.2.2)
    else
      let r := vertexLoopDxil (offset + 4 * elementCount) rest
      ({ name := semanticNameWithIndex input.semanticName input.semanticIndex,
         format := elementFormat, bufferIndex := 0, offset := offset,
         elementStride := 0 } :: r.1, r.2.1, r.2.2)

/-- `ShaderReflection::DXILReflect` from `Source/ShaderCompiler.cpp`, the
`_WIN32` branch.  `refl` is the outcome of obtaining the reflection
interface (`none` collapses the container/legacy acquisition failures and
the `GetDesc` failure, each of which logs an error and returns the
still-empty info). -/
def DXILReflectWin (type : IGNITE_ShaderType) (shaderCode : List Nat)
    (refl : Option D3DReflectionData) : ShaderReflectionInfo × List LogMsg :=
  let info0 : ShaderReflectionInfo := { shaderType := type }
  if shaderCode.length < 4 then
    (info0, [(IGNITE_LogType.ERROR, "DXIL reflection failed: shader blob is empty or too small.")])
  else
    match refl with
    | none =>
      (info0, [(IGNITE_LogType.ERROR, "DXIL reflection failed.")])
    | some r =>
      let uniformBuffers := dxilUniformBuffers r
      let sampledImages := dxilClassified r (fun t => t = .TEXTURE)
      let separateSamplers := dxilClassified r (fun t => t = .SAMPLER)
      let storageBuffers := dxilClassified r isUAVStorageKind
      let stageInputs := dxilStageEntries r.inputParameters
      let stageOutputs := dxilStageEntries r.outputParameters
      let vres :=
        if type = .VERTEX then vertexLoopDxil 0 (dxilSortedVertexInputs r)
        else ([], 0, [])
      let vertexAttributes := setStride vres.2.1 vres.1
      ({ shaderType := type,
         numUniformBuffers := uniformBuffers.length,
         numSamplers := sampledImages.length,
         numStorageTextures := 0,
         numStorageBuffers := storageBuffers.length,
         numSeparateSamplers := separateSamplers.length,
         numSeparateImages := 0,
         numPushConstants := 0,
         numStageInputs := stageInputs.length,
         numStageOutputs := stageOutputs.length,
         uniformBuffers := uniformBuffers,
         sampledImages := sampledImages,
         storageBuffers := storageBuffers,
         separateSamplers := separateSamplers,
         stageInputs := stageInputs,
         stageOutputs := stageOutputs,
         vertexAttributes := vertexAttributes },
       vres.2.2 ++ [(IGNITE_LogType.INFO, "DXIL reflection complete")])

/-- `ShaderReflection::DXILReflect`, the non-`_WIN32` branch: dispatches one
warning and returns the empty info without touching the bytecode. -/
def DXILReflectNonWin (type : IGNITE_ShaderType) : ShaderReflectionInfo × List LogMsg :=
  ({ shaderType := type },
   [(IGNITE_LogType.WARNING, "DXIL reflection is only available on Windows platform")])

/-- `ignite::ShaderDesc` from the compiler header, with its member
defaults. -/
structure ShaderDesc where
  entryPoint : String := "main"
  shaderModel : String := "6_5"
  vulkanVersion : String := "1.3"
  vulkanMemoryLayout : String := ""
  combinedDefines : String := ""
  shaderType : IGNITE_ShaderType := .VERTEX
  optLevel : IGNITE_OptimizationLevel := .OPT_LEVEL_3
deriving DecidableEq, Repr

/-- `ignite::CompilerOptions` from the compiler header (the fields the
argument synthesizer reads), with the C++ member defaults.  `compilerType`,
`platformType` and `ShaderDesc::shaderType` have no initializer in the
source; the defaults chosen here are irrelevant to every claim.  Wide
strings and filesystem paths are modelled as `String`. -/
structure CompilerOptions where
  platformType : IGNITE_ShaderPlatformType := .DXIL
  filepath : String := ""
  outputFilepath : String := ""
  includeDirectories : List String := []
  spirvExtensions : List String := ["SPV_EXT_descriptor_indexing", "KHR"]
  compilerOptions : List String := []
  defines : List String := []
  tRegShift : Nat := 0
  sRegShift : Nat := 128
  bRegShift : Nat := 256
  uRegShift : Nat := 384
  shaderDesc : ShaderDesc := {}
  warningsAreErrors : Bool := false
  allResourcesBound : Bool := false
  stripReflection : Bool := false
  matrixRowMajor : Bool := false
  hlsl2021 : Bool := false
  embedPdb : Bool := false
  verbose : Bool := false
deriving DecidableEq, Repr

/-- `SPIRV_SPACES_NUM` from `Source/ShaderCompiler.cpp`. -/
def SPIRV_SPACES_NUM : Nat := 8

/-- The `dxcRegShiftArgs` table: one register-shift flag per HLSL register
kind (t, s, b, u). -/
def dxcRegShiftArgs : List String :=
  ["-fvk-t-shift", "-fvk-s-shift", "-fvk-b-shift", "-fvk-u-shift"]

/-- `(&options.tRegShift)[reg]`: the raw offset arithmetic over the four
consecutive `uint32_t` shift fields of `CompilerOptions` (declared in the
order t, s, b, u), read as indexing the kind. -/
def kindShift (o : CompilerOptions) : Nat → Nat
  | 0 => o.tRegShift
  | 1 => o.sRegShift
  | 2 => o.bRegShift
  | _ => o.uRegShift

/-- The register-shift gathering loop of `CompileDXC`: for each of the 4
register kinds and each of the `SPIRV_SPACES_NUM` spaces, push the kind's
flag, the kind's configured shift value, and the space index. -/
def regShifts (o : CompilerOptions) : List String :=
  (List.range 4).flatMap fun reg =>
    (List.range SPIRV_SPACES_NUM).flatMap fun space =>
      [dxcRegShiftArgs.getD reg "", toString (kindShift o reg), toString space]

/-- The same loop viewed one shift argument at a time:
(kind index, shift value, space index) triples. -/
def regShiftTriples (o : CompilerOptions) : List (Nat × Nat × Nat) :=
  (List.range 4).flatMap fun reg =>
    (List.range SPIRV_SPACES_NUM).map fun space => (reg, kindShift o reg, space)

/-- All 4 x 8 (kind, space) combinations in loop order. -/
def kindSpacePairs : List (Nat × Nat) :=
  (List.range 4).flatMap fun reg =>
    (List.range SPIRV_SPACES_NUM).map fun space => (reg, space)

/-- `dxcOptimizationLevelRemap` from `CompileDXC`, indexed by the
optimization tier; string values of the `DXC_ARG_*` macros from
`dxcapi.h`. -/
def dxcOptimizationLevelRemap : List String :=
  ["-Od", "-O1", "-O2", "-O3"]

/-- `static_cast<uint32_t>(options.shaderDesc.optLevel)`. -/
def optLevelIndex : IGNITE_OptimizationLevel → Nat
  | .OPT_LEVEL_0 => 0
  | .OPT_LEVEL_1 => 1
  | .OPT_LEVEL_2 => 2
  | .OPT_LEVEL_3 => 3

/-- The optimization flag `CompileDXC` pushes:
`dxcOptimizationLevelRemap[static_cast<uint32_t>(optLevel)]`. -/
def dxcOptFlag (lvl : IGNITE_OptimizationLevel) : String :=
  dxcOptimizationLevelRemap.getD (optLevelIndex lvl) ""

/-- `shaderModelIndex` from `CompileDXC`:
`(shaderModel[0] - '0') * 10 + (shaderModel[2] - '0')`.  Out-of-range string
indices are modelled as the NUL character the C string would yield. -/
def shaderModelIndex (shaderModel : String) : Nat :=
  let cs := shaderModel.toList
  ((cs.getD 0 (Char.ofNat 0)).toNat - 48) * 10 + ((cs.getD 2 (Char.ofNat 0)).toNat - 48)

/-- `TokenizeCompilerOptions` from the compiler header: splits an option
string at spaces, honouring double quotes and backslash escapes.  `cur` is
the token being accumulated, `quotes`/`escape` the two state flags. -/
def tokenizeCompilerOptionsAux (cur : String) (quotes escape : Bool) :
    List Char → List String
  | [] => if cur = "" then [] else [cur]
  | ch :: rest =>
    if escape then
      tokenizeCompilerOptionsAux (cur.push ch) quotes false rest
    else if ch = ' ' ∧ quotes = false then
      if cur = "" then tokenizeCompilerOptionsAux "" quotes false rest
      else cur :: tokenizeCompilerOptionsAux "" quotes false rest
    else if ch = '\\' then
      tokenizeCompilerOptionsAux cur quotes true rest
    else if ch = '"' then
      tokenizeCompilerOptionsAux cur (!quotes) false rest
    else
      tokenizeCompilerOptionsAux (cur.push ch) quotes false rest

/-- `TokenizeCompilerOptions` entry point. -/
def tokenizeCompilerOptions (options : String) : List String :=
  tokenizeCompilerOptionsAux "" false false options.toList

/-- The argument sequence of `CompileDXC` up to (and excluding) the
platform-specific block: source file, profile, entry point, defines,
include directories, optimization flag, and the conditional feature flags.
Literal strings are the values of the corresponding `DXC_ARG_*` macros. -/
def compileDXCArgsBase (o : CompilerOptions) : List String :=
  [o.filepath, "-T", IGNITE_ShaderTypeToProfile o.shaderDesc.shaderType ++ "_" ++ o.shaderDesc.shaderModel,
    "-E", o.shaderDesc.entryPoint]
  ++ o.defines.flatMap (fun d => ["-D", d])
  ++ o.includeDirectories.flatMap (fun p => ["-I", p])
  ++ [dxcOptFlag o.shaderDesc.optLevel]
  ++ (if shaderModelIndex o.shaderDesc.shaderModel ≥ 62 then ["-enable-16bit-types"] else [])
  ++ (if o.warningsAreErrors then ["-WX"] else [])
  ++ (if o.allResourcesBound then ["-all_resources_bound"] else [])
  ++ (if o.matrixRowMajor then ["-Zpr"] else [])
  ++ (if o.hlsl2021 then ["-HV", "2021"] else [])
  ++ (if o.embedPdb then ["-Qembed_debug"] else [])

/-- The SPIR-V-only argument block of `CompileDXC` that precedes the
register shifts: `-spirv`, target environment, optional memory-layout hint,
and the portability-extension flags. -/
def spirvArgsHead (o : CompilerOptions) : List String :=
  ["-spirv", "-fspv-target-env=vulkan" ++ o.shaderDesc.vulkanVersion]
  ++ (if o.shaderDesc.vulkanMemoryLayout = "" then []
      else ["-fvk-use-" ++ o.shaderDesc.vulkanMemoryLayout ++ "-layout"])
  ++ o.spirvExtensions.map (fun ext => "-fspv-extension=" ++ ext)

/-- The complete argument sequence `CompileDXC` synthesizes for the backend
invocation (the `args` vector at the point it is handed to DXC). -/
def compileDXCArgs (o : CompilerOptions) : List String :=
  compileDXCArgsBase o
  ++ (if o.platformType = .SPIRV then spirvArgsHead o ++ regShifts o
      else if o.stripReflection then ["-Qstrip_reflect"] else [])
  ++ o.compilerOptions.flatMap tokenizeCompilerOptions

/-- `IgniteShaderReflectionInfo` from `Source/ShaderCompilerCAPI.h`: the
flattened caller-owned C struct.  A `none` array models the null pointer the
bridge leaves (and `calloc` is never reached) when the source list is
empty. -/
structure IgniteShaderReflectionInfoC where
  shaderType : IGNITE_ShaderType := .VERTEX
  numUniformBuffers : Nat := 0
  numSamplers : Nat := 0
  numStorageTextures : Nat := 0
  numStorageBuffers : Nat := 0
  numSeparateSamplers : Nat := 0
  numSeparateImages : Nat := 0
  numPushConstants : Nat := 0
  numStageInputs : Nat := 0
  numStageOutputs : Nat := 0
  uniformBuffers : Option (List ShaderResourceInfo) := none
  sampledImages : Option (List ShaderResourceInfo) := none
  storageImages : Option (List ShaderResourceInfo) := none
  storageBuffers : Option (List ShaderResourceInfo) := none
  separateSamplers : Option (List ShaderResourceInfo) := none
  separateImages : Option (List ShaderResourceInfo) := none
  pushConstants : Option (List ShaderPushConstantInfo) := none
  stageInputs : Option (List ShaderStageIOInfo) := none
  stageOutputs : Option (List ShaderStageIOInfo) := none
  vertexAttributes : Option (List VertexAttribute) := none
  vertexAttributeCount : Nat := 0
deriving DecidableEq, Repr

/-- The `Fill*Array` bridge helpers: an empty source vector leaves the out
pointer null, otherwise the elements are copied.  Allocation is modelled as
always succeeding (an OOM would make the bridge return
`IGNITE_RESULT_INTERNAL_ERROR`; no claim depends on that path). -/
def fillArrayC {α : Type} (source : List α) : Option (List α) :=
  if source.isEmpty then none else some source

/-- `FillCReflectionInfo` from the C-API bridge: copies counts and arrays of
the C++ reflection model into the C struct. -/
def FillCReflectionInfo (r : ShaderReflectionInfo) :
    IGNITE_ResultCode × IgniteShaderReflectionInfoC :=
  (.OK,
   { shaderType := r.shaderType,
     numUniformBuffers := r.numUniformBuffers,
     numSamplers := r.numSamplers,
     numStorageTextures := r.numStorageTextures,
     numStorageBuffers := r.numStorageBuffers,
     numSeparateSamplers := r.numSeparateSamplers,
     numSeparateImages := r.numSeparateImages,
     numPushConstants := r.numPushConstants,
     numStageInputs := r.numStageInputs,
     numStageOutputs := r.numStageOutputs,
     uniformBuffers := fillArrayC r.uniformBuffers,
     sampledImages := fillArrayC r.sampledImages,
     storageImages := fillArrayC r.storageImages,
     storageBuffers := fillArrayC r.storageBuffers,
     separateSamplers := fillArrayC r.separateSamplers,
     separateImages := fillArrayC r.separateImages,
     pushConstants := fillArrayC r.pushConstants,
     stageInputs := fillArrayC r.stageInputs,
     stageOutputs := fillArrayC r.stageOutputs,
     vertexAttributes := fillArrayC r.vertexAttributes,
     vertexAttributeCount := r.vertexAttributes.length })

/-- `IgniteCompiler_ReflectDXIL` from the C-API bridge, as built on a
non-Windows host (so `ShaderReflection::DXILReflect` takes its non-`_WIN32`
branch).  `dxilDataIsNull`/`outIsNull` model null pointer arguments; the
returned triple is (result code, `*outReflectionInfo` after the call, log
messages dispatched during the call). -/
def IgniteCompiler_ReflectDXIL_nonWin (dxilDataIsNull : Bool) (sizeInBytes : Nat)
    (shaderType : IGNITE_ShaderType) (outIsNull : Bool) :
    IGNITE_ResultCode × IgniteShaderReflectionInfoC × List LogMsg :=
  if dxilDataIsNull ∨ sizeInBytes = 0 ∨ outIsNull then
    (.INVALID_ARGUMENT, {}, [])
  else
    let r := DXILReflectNonWin shaderType
    let f := FillCReflectionInfo r.1
    (f.1, f.2, r.2)

/-- C5: both TypeMapper functions send (float32, vector width 2, single
column) to the 2-component float format, and for each supported scalar kind
(float32, signed-int32, unsigned-int32) a width-4 input never maps to the
invalid/unsupported sentinel in either mapper. -/
theorem type_mapper_float2_and_width4 :
    IGNITE_Map3DComponent .FLOAT32 2 = .FLOAT2 ∧
    IGNITE_MapSpvcType (some ⟨.FP32, 2, 1⟩) = .FLOAT2 ∧
    IGNITE_Map3DComponent .FLOAT32 4 ≠ .INVALID ∧
    IGNITE_Map3DComponent .SINT32 4 ≠ .INVALID ∧
    IGNITE_Map3DComponent .UINT32 4 ≠ .INVALID ∧
    IGNITE_MapSpvcType (some ⟨.FP32, 4, 1⟩) ≠ .INVALID ∧
    IGNITE_MapSpvcType (some ⟨.INT32, 4, 1⟩) ≠ .INVALID ∧
    IGNITE_MapSpvcType (some ⟨.UINT32, 4, 1⟩) ≠ .INVALID := by
  decide

/-- C6: the two TypeMapper tables are asymmetric exactly on 3- and 4-wide
float32 inputs, where the family-A (DXIL) mapper returns the format one
enumeration slot below the family-B (SPIR-V) mapper's result; on every other
supported (scalar kind, width) input the two tables agree. -/
theorem type_mapper_tables_asymmetric :
    (∀ i : Fin 2,
      formatValue (IGNITE_Map3DComponent .FLOAT32 (i.1 + 3)) + 1
        = formatValue (IGNITE_MapSpvcType (some ⟨.FP32, i.1 + 3, 1⟩))) ∧
    (∀ i : Fin 2,
      IGNITE_Map3DComponent .FLOAT32 (i.1 + 1)
        = IGNITE_MapSpvcType (some ⟨.FP32, i.1 + 1, 1⟩)) ∧
    (∀ i : Fin 4,
      IGNITE_Map3DComponent .SINT32 (i.1 + 1)
        = IGNITE_MapSpvcType (some ⟨.INT32, i.1 + 1, 1⟩)) ∧
    (∀ i : Fin 4,
      IGNITE_Map3DComponent .UINT32 (i.1 + 1)
        = IGNITE_MapSpvcType (some ⟨.UINT32, i.1 + 1, 1⟩)) := by
  decide

/-- C7 counterexample: tiers 1 and 2 do NOT collapse to one optimization
flag in the DXC argument synthesizer - two compile descriptors differing
only in the optimization tier receive the distinct flags `-O1` and `-O2`,
refuting the claim that tiers 1-3 all emit the same
"maximize performance" flag. -/
theorem opt_tiers_do_not_collapse_counterexample :
    dxcOptFlag .OPT_LEVEL_1 ≠ dxcOptFlag .OPT_LEVEL_2 ∧
    dxcOptFlag .OPT_LEVEL_1
        ∈ compileDXCArgs { shaderDesc := { optLevel := .OPT_LEVEL_1 } } ∧
    dxcOptFlag .OPT_LEVEL_1
        ∉ compileDXCArgs { shaderDesc := { optLevel := .OPT_LEVEL_2 } } ∧
    dxcOptFlag .OPT_LEVEL_2
        ∈ compileDXCArgs { shaderDesc := { optLevel := .OPT_LEVEL_2 } } := by
  decide

/-- C7 (amended): the DXC argument synthesizer always emits the remap-table
flag for the requested tier; tier 0 maps to the skip-optimizations flag
`-Od`, while tiers 1, 2 and 3 map to the three pairwise distinct flags
`-O1`, `-O2`, `-O3` (no collapse).  The collapse of tiers 1-3 to the single
"maximize performance" level exists only in the GLSL/shaderc path's
optimization-level mapping. -/
theorem opt_flag_emission_per_tier (o : CompilerOptions) :
    dxcOptFlag o.shaderDesc.optLevel ∈ compileDXCArgs o ∧
    dxcOptFlag .OPT_LEVEL_0 = "-Od" ∧
    dxcOptFlag .OPT_LEVEL_1 = "-O1" ∧
    dxcOptFlag .OPT_LEVEL_2 = "-O2" ∧
    dxcOptFlag .OPT_LEVEL_3 = "-O3" ∧
    IGNITE_ShaderToShaderCOptLevel .OPT_LEVEL_0 = .zero ∧
    IGNITE_ShaderToShaderCOptLevel .OPT_LEVEL_1 = .performance ∧
    IGNITE_ShaderToShaderCOptLevel .OPT_LEVEL_2 = .performance ∧
    IGNITE_ShaderToShaderCOptLevel .OPT_LEVEL_3 = .performance := by
  refine ⟨?_, rfl, rfl, rfl, rfl, rfl, rfl, rfl, rfl⟩
  simp [compileDXCArgs, compileDXCArgsBase, List.mem_append]

/-- C8: whenever the parsed shader-model number reaches 62 the synthesizer
emits the extended (16-bit) scalar-type flag; the model strings "6.2" and
"6.0" parse to 62 and 60, the flag is present for a descriptor with model
"6.2" and absent for one with model "6.0". -/
theorem sixteen_bit_flag_threshold (o : CompilerOptions)
    (h : 62 ≤ shaderModelIndex o.shaderDesc.shaderModel) :
    "-enable-16bit-types" ∈ compileDXCArgs o ∧
    shaderModelIndex "6.2" = 62 ∧
    shaderModelIndex "6.0" = 60 ∧
    "-enable-16bit-types" ∈ compileDXCArgs { shaderDesc := { shaderModel := "6.2" } } ∧
    "-enable-16bit-types" ∉ compileDXCArgs { shaderDesc := { shaderModel := "6.0" } } := by
  refine ⟨?_, by decide, by decide, by decide, by decide⟩
  simp [compileDXCArgs, compileDXCArgsBase, List.mem_append, h]

/-- C8 witness: the default descriptor's model string "6_5" parses to 65,
so the flag is present. -/
theorem sixteen_bit_flag_threshold_witness :
    62 ≤ shaderModelIndex (({} : CompilerOptions)).shaderDesc.shaderModel ∧
    "-enable-16bit-types" ∈ compileDXCArgs {} :=
  ⟨by decide, (sixteen_bit_flag_threshold {} (by decide)).1⟩

/-- C4: for a descriptor targeting SPIR-V the synthesized argument list
contains the register-shift block; that block consists of exactly 32 shift
arguments, whose (kind, space) pairs enumerate each of the 4 x 8
combinations exactly once (the pair list is duplicate-free and complete),
whose shift value is the configured base shift of the kind, and whose space
component is the loop index; the default base shifts are 0, 128, 256, 384. -/
theorem spirv_register_shift_block (o : CompilerOptions)
    (h : o.platformType = .SPIRV) :
    (regShiftTriples o).length = 32 ∧
    (regShiftTriples o).map (fun t => (t.1, t.2.2)) = kindSpacePairs ∧
    kindSpacePairs.Nodup ∧
    kindSpacePairs.length = 32 ∧
    (∀ t ∈ regShiftTriples o, t.2.1 = kindShift o t.1) ∧
    regShifts o = (regShiftTriples o).flatMap
      (fun t => [dxcRegShiftArgs.getD t.1 "", toString t.2.1, toString t.2.2]) ∧
    (∃ pre post, compileDXCArgs o = pre ++ regShifts o ++ post) ∧
    (∀ k : Fin 4, kindShift ({} : CompilerOptions) k.1 = 128 * k.1) := by
  refine ⟨rfl, rfl, by decide, by decide, ?_, rfl, ?_, by decide⟩
  · intro t ht
    fin_cases ht <;> rfl
  · exact ⟨compileDXCArgsBase o ++ spirvArgsHead o,
      o.compilerOptions.flatMap tokenizeCompilerOptions,
      by simp [compileDXCArgs, h, List.append_assoc]⟩

/-- C4 witness: a concrete SPIR-V descriptor. -/
theorem spirv_register_shift_block_witness :
    (({ platformType := .SPIRV } : CompilerOptions)).platformType = .SPIRV ∧
    (regShiftTriples { platformType := .SPIRV }).length = 32 :=
  ⟨rfl, (spirv_register_shift_block { platformType := .SPIRV } rfl).1⟩

/-- C1: a SPIR-V blob whose byte length is not a multiple of 4 is rejected
with the size-alignment error before any parse attempt - the result is the
same for every possible parse outcome - and the returned info carries no
partial data: every resource, stage-IO, push-constant and vertex-attribute
list is empty and every count field is zero. -/
theorem spirv_misaligned_rejected_before_parse (t : IGNITE_ShaderType)
    (shaderCode : List Nat) (backend : Option SpvModule)
    (h : shaderCode.length % 4 ≠ 0) :
    SPIRVReflect t shaderCode backend = ({ shaderType := t }, [spvSizeErrorLog]) ∧
    (∀ parseOutcome : Option SpvModule,
      SPIRVReflect t shaderCode parseOutcome = SPIRVReflect t shaderCode backend) ∧
    (SPIRVReflect t shaderCode backend).1.uniformBuffers = [] ∧
    (SPIRVReflect t shaderCode backend).1.sampledImages = [] ∧
    (SPIRVReflect t shaderCode backend).1.storageImages = [] ∧
    (SPIRVReflect t shaderCode backend).1.storageBuffers = [] ∧
    (SPIRVReflect t shaderCode backend).1.separateSamplers = [] ∧
    (SPIRVReflect t shaderCode backend).1.separateImages = [] ∧
    (SPIRVReflect t shaderCode backend).1.pushConstants = [] ∧
    (SPIRVReflect t shaderCode backend).1.stageInputs = [] ∧
    (SPIRVReflect t shaderCode backend).1.stageOutputs = [] ∧
    (SPIRVReflect t shaderCode backend).1.vertexAttributes = [] ∧
    (SPIRVReflect t shaderCode backend).1.numUniformBuffers = 0 ∧
    (SPIRVReflect t shaderCode backend).1.numStageInputs = 0 ∧
    (SPIRVReflect t shaderCode backend).1.numStageOutputs = 0 ∧
    (SPIRVReflect t shaderCode backend).1.numPushConstants = 0 := by
  have key : ∀ b : Option SpvModule,
      SPIRVReflect t shaderCode b = ({ shaderType := t }, [spvSizeErrorLog]) := by
    intro b
    simp [SPIRVReflect, h]
  refine ⟨key backend, fun b => (key b).trans (key backend).symm, ?_⟩
  rw [key backend]
  exact ⟨rfl, rfl, rfl, rfl, rfl, rfl, rfl, rfl, rfl, rfl, rfl, rfl, rfl, rfl⟩

/-- C1 witness: a 1-byte blob against a parse outcome that would carry
data, showing none of it reaches the result. -/
theorem spirv_misaligned_rejected_before_parse_witness :
    ([(0 : Nat)].length % 4 ≠ 0) ∧
    SPIRVReflect .VERTEX [0]
        (some { uniformBuffers := [{ name := "ubo", id := 7, set := 1, binding := 3 }],
                stageInputs := [{ name := "pos", id := 1, location := 0,
                                  typeHandle := some ⟨.FP32, 2, 1⟩ }] })
      = ({ shaderType := .VERTEX }, [spvSizeErrorLog]) :=
  ⟨by decide,
   (spirv_misaligned_rejected_before_parse .VERTEX [0]
      (some { uniformBuffers := [{ name := "ubo", id := 7, set := 1, binding := 3 }],
              stageInputs := [{ name := "pos", id := 1, location := 0,
                                typeHandle := some ⟨.FP32, 2, 1⟩ }] })
      (by decide)).1⟩

/-- The stage-input list of `SPIRVReflect` is either empty (an error path)
or the sorted entries of the parsed module. -/
theorem SPIRVReflect_stageInputs_cases (t : IGNITE_ShaderType) (code : List Nat)
    (b : Option SpvModule) :
    (SPIRVReflect t code b).1.stageInputs = [] ∨
    ∃ m, b = some m ∧
      (SPIRVReflect t code b).1.stageInputs = collectStageEntries m.stageInputs := by
  by_cases h : code.length % 4 = 0
  · cases b with
    | none => left; simp [SPIRVReflect, h]
    | some m => right; exact ⟨m, rfl, by simp [SPIRVReflect, h]⟩
  · left; simp [SPIRVReflect, h]

/-- The stage-output list of `SPIRVReflect` is either empty (an error path)
or the sorted entries of the parsed module. -/
theorem SPIRVReflect_stageOutputs_cases (t : IGNITE_ShaderType) (code : List Nat)
    (b : Option SpvModule) :
    (SPIRVReflect t code b).1.stageOutputs = [] ∨
    ∃ m, b = some m ∧
      (SPIRVReflect t code b).1.stageOutputs = collectStageEntries m.stageOutputs := by
  by_cases h : code.length % 4 = 0
  · cases b with
    | none => left; simp [SPIRVReflect, h]
    | some m => right; exact ⟨m, rfl, by simp [SPIRVReflect, h]⟩
  · left; simp [SPIRVReflect, h]

/-- The stage-input list of `DXILReflectWin` is either empty (an error
path) or the sorted entries of the reflection data. -/
theorem DXILReflectWin_stageInputs_cases (t : IGNITE_ShaderType) (code : List Nat)
    (r : Option D3DReflectionData) :
    (DXILReflectWin t code r).1.stageInputs = [] ∨
    ∃ d, r = some d ∧
      (DXILReflectWin t code r).1.stageInputs = dxilStageEntries d.inputParameters := by
  by_cases h : code.length < 4
  · left; simp [DXILReflectWin, h]
  · cases r with
    | none => left; simp [DXILReflectWin, h]
    | some d => right; exact ⟨d, rfl, by simp [DXILReflectWin, h]⟩

/-- The stage-output list of `DXILReflectWin` is either empty (an error
path) or the sorted entries of the reflection data. -/
theorem DXILReflectWin_stageOutputs_cases (t : IGNITE_ShaderType) (code : List Nat)
    (r : Option D3DReflectionData) :
    (DXILReflectWin t code r).1.stageOutputs = [] ∨
    ∃ d, r = some d ∧
      (DXILReflectWin t code r).1.stageOutputs = dxilStageEntries d.outputParameters := by
  by_cases h : code.length < 4
  · left; simp [DXILReflectWin, h]
  · cases r with
    | none => left; simp [DXILReflectWin, h]
    | some d => right; exact ⟨d, rfl, by simp [DXILReflectWin, h]⟩

/-- The `collectStageIO` lambda sorts what it collects. -/
theorem sorted_collectStageEntries (l : List SpvStageVariable) :
    List.Sorted ioLE (collectStageEntries l) :=
  List.sorted_insertionSort ioLE _

/-- The signature-parameter collection of `DXILReflect` sorts what it
collects. -/
theorem sorted_dxilStageEntries (ps : List (Option D3DSignatureParameterDesc)) :
    List.Sorted ioLE (dxilStageEntries ps) :=
  List.sorted_insertionSort ioLE _

/-- C2: for every input to either reflection path, the stage-input and
stage-output lists of the returned info are sorted ascending by their
ordering key (`location`, which holds the SPIR-V location for family B and
the register index for family A), regardless of declaration order. -/
theorem stage_io_lists_sorted (t : IGNITE_ShaderType) (code : List Nat)
    (b : Option SpvModule) (t2 : IGNITE_ShaderType) (code2 : List Nat)
    (r : Option D3DReflectionData) :
    List.Sorted ioLE (SPIRVReflect t code b).1.stageInputs ∧
    List.Sorted ioLE (SPIRVReflect t code b).1.stageOutputs ∧
    List.Sorted ioLE (DXILReflectWin t2 code2 r).1.stageInputs ∧
    List.Sorted ioLE (DXILReflectWin t2 code2 r).1.stageOutputs := by
  refine ⟨?_, ?_, ?_, ?_⟩
  · rcases SPIRVReflect_stageInputs_cases t code b with h | ⟨m, _, h⟩ <;>
      rw [h]
    · exact List.sorted_nil
    · exact sorted_collectStageEntries _
  · rcases SPIRVReflect_stageOutputs_cases t code b with h | ⟨m, _, h⟩ <;>
      rw [h]
    · exact List.sorted_nil
    · exact sorted_collectStageEntries _
  · rcases DXILReflectWin_stageInputs_cases t2 code2 r with h | ⟨d, _, h⟩ <;>
      rw [h]
    · exact List.sorted_nil
    · exact sorted_dxilStageEntries _
  · rcases DXILReflectWin_stageOutputs_cases t2 code2 r with h | ⟨d, _, h⟩ <;>
      rw [h]
    · exact List.sorted_nil
    · exact sorted_dxilStageEntries _

/-- C10: neither branch of the family-A (DXIL) extractor ever populates the
storage-image, separate-image or push-constant categories: those three
lists are always empty and their count fields zero. -/
theorem dxil_never_populates_three_categories (t : IGNITE_ShaderType)
    (code : List Nat) (r : Option D3DReflectionData) (t2 : IGNITE_ShaderType) :
    (DXILReflectWin t code r).1.storageImages = [] ∧
    (DXILReflectWin t code r).1.separateImages = [] ∧
    (DXILReflectWin t code r).1.pushConstants = [] ∧
    (DXILReflectWin t code r).1.numStorageTextures = 0 ∧
    (DXILReflectWin t code r).1.numSeparateImages = 0 ∧
    (DXILReflectWin t code r).1.numPushConstants = 0 ∧
    (DXILReflectNonWin t2).1.storageImages = [] ∧
    (DXILReflectNonWin t2).1.separateImages = [] ∧
    (DXILReflectNonWin t2).1.pushConstants = [] := by
  by_cases h : code.length < 4
  · simp [DXILReflectWin, h, DXILReflectNonWin]
  · cases r with
    | none => simp [DXILReflectWin, h, DXILReflectNonWin]
    | some d => simp [DXILReflectWin, h, DXILReflectNonWin]

/-- C9 counterexample: on a non-Windows host, reflecting a valid DXIL
buffer through the C API does NOT return the "unsupported platform" result
code - it returns `IGNITE_RESULT_OK`. -/
theorem dxil_nonwin_result_counterexample :
    (IgniteCompiler_ReflectDXIL_nonWin false 16 .VERTEX false).1 = .OK ∧
    (IgniteCompiler_ReflectDXIL_nonWin false 16 .VERTEX false).1 ≠ .UNSUPPORTED_PLATFORM := by
  decide

/-- C9 (amended): on a host without the native reflection toolchain the
family-A reflection path makes no reflection attempt - it returns the empty
info and dispatches only a warning that DXIL reflection is Windows-only -
and the C API reports `IGNITE_RESULT_OK` (not `UNSUPPORTED_PLATFORM`) for
valid arguments, handing back a zeroed reflection struct. -/
theorem dxil_nonwin_no_attempt_warns_ok (t : IGNITE_ShaderType) (sz : Nat)
    (h : sz ≠ 0) :
    (DXILReflectNonWin t).1 = { shaderType := t } ∧
    (DXILReflectNonWin t).2
      = [(IGNITE_LogType.WARNING, "DXIL reflection is only available on Windows platform")] ∧
    IgniteCompiler_ReflectDXIL_nonWin false sz t false
      = (.OK, ({ shaderType := t } : IgniteShaderReflectionInfoC),
         [(IGNITE_LogType.WARNING, "DXIL reflection is only available on Windows platform")]) := by
  refine ⟨rfl, rfl, ?_⟩
  simp [IgniteCompiler_ReflectDXIL_nonWin, h, DXILReflectNonWin, FillCReflectionInfo, fillArrayC]

/-- C9 witness: a 16-byte buffer for the vertex stage. -/
theorem dxil_nonwin_no_attempt_warns_ok_witness :
    (16 : Nat) ≠ 0 ∧
    IgniteCompiler_ReflectDXIL_nonWin false 16 .VERTEX false
      = (.OK, ({ shaderType := .VERTEX } : IgniteShaderReflectionInfoC),
         [(IGNITE_LogType.WARNING, "DXIL reflection is only available on Windows platform")]) :=
  ⟨by decide, (dxil_nonwin_no_attempt_warns_ok .VERTEX 16 (by decide)).2.2⟩

/-- Exclusive prefix sums: the byte offset each successive element starts
at when sizes are accumulated from `start`. -/
def offsetScan (start : Nat) : List Nat → List Nat
  | [] => []
  | s :: rest => start :: offsetScan (start + s) rest

/-- The stage inputs the SPIR-V vertex loop actually emits: those whose
mapped format is not the invalid sentinel. -/
def keptInputsSpv (l : List ShaderStageIOInfo) : List ShaderStageIOInfo :=
  l.filter fun i => decide ¬(i.format = .INVALID)

/-- The vertex inputs the DXIL vertex loop actually emits: those whose
mapped format is not the invalid sentinel. -/
def keptInputsDxil (l : List InputAttribute) : List InputAttribute :=
  l.filter fun i =>
    decide ¬(IGNITE_Map3DComponent i.componentType (popCountMin1 i.mask) = .INVALID)

/-- The SPIR-V vertex loop's final accumulated offset is the sum of the
emitted inputs' sizes. -/
theorem vertexLoopSpv_final (off : Nat) (l : List ShaderStageIOInfo) :
    (vertexLoopSpv off l).2.1 = off + ((keptInputsSpv l).map attrSizeOfInput).sum := by
  induction l generalizing off with
  | nil => simp [vertexLoopSpv, keptInputsSpv]
  | cons a rest ih =>
    by_cases h : a.format = .INVALID
    · simp [vertexLoopSpv, keptInputsSpv, h, ih]
    · simp [vertexLoopSpv, keptInputsSpv, h, ih]
      omega

/-- The SPIR-V vertex loop assigns each emitted attribute the next
sequential byte offset. -/
theorem vertexLoopSpv_offsets (off : Nat) (l : List ShaderStageIOInfo) :
    (vertexLoopSpv off l).1.map VertexAttribute.offset
      = offsetScan off ((keptInputsSpv l).map attrSizeOfInput) := by
  induction l generalizing off with
  | nil => simp [vertexLoopSpv, keptInputsSpv, offsetScan]
  | cons a rest ih =>
    by_cases h : a.format = .INVALID
    · simp [vertexLoopSpv, keptInputsSpv, h, ih]
    · simp [vertexLoopSpv, keptInputsSpv, h, ih, offsetScan]

/-- The SPIR-V vertex loop emits exactly the kept inputs, in order, with
their names and formats. -/
theorem vertexLoopSpv_fields (off : Nat) (l : List ShaderStageIOInfo) :
    (vertexLoopSpv off l).1.map (fun a => (a.name, a.format))
      = (keptInputsSpv l).map (fun i => (i.name, i.format)) := by
  induction l generalizing off with
  | nil => simp [vertexLoopSpv, keptInputsSpv]
  | cons a rest ih =>
    by_cases h : a.format = .INVALID
    · simp [vertexLoopSpv, keptInputsSpv, h, ih]
    · simp [vertexLoopSpv, keptInputsSpv, h, ih]

/-- The SPIR-V vertex loop logs exactly one message per skipped input. -/
theorem vertexLoopSpv_warn_count (off : Nat) (l : List ShaderStageIOInfo) :
    (vertexLoopSpv off l).2.2.length
      = (l.filter fun i => decide (i.format = .INVALID)).length := by
  induction l generalizing off with
  | nil => simp [vertexLoopSpv]
  | cons a rest ih =>
    by_cases h : a.format = .INVALID
    · simp [vertexLoopSpv, h, ih]
    · simp [vertexLoopSpv, h, ih]

/-- Every message the SPIR-V vertex loop logs is a warning. -/
theorem vertexLoopSpv_warn_sev (off : Nat) (l : List ShaderStageIOInfo) :
    ∀ msg ∈ (vertexLoopSpv off l).2.2, msg.1 = .WARNING := by
  induction l generalizing off with
  | nil => simp [vertexLoopSpv]
  | cons a rest ih =>
    by_cases h : a.format = .INVALID
    · simpa [vertexLoopSpv, h] using fun msg hm => ih _ msg hm
    · simpa [vertexLoopSpv, h] using fun msg hm => ih _ msg hm

/-- The DXIL vertex loop's final accumulated offset is the sum of the
emitted inputs' sizes. -/
theorem vertexLoopDxil_final (off : Nat) (l : List InputAttribute) :
    (vertexLoopDxil off l).2.1 = off + ((keptInputsDxil l).map dxilAttrSize).sum := by
  induction l generalizing off with
  | nil => simp [vertexLoopDxil, keptInputsDxil]
  | cons a rest ih =>
    by_cases h : IGNITE_Map3DComponent a.componentType (popCountMin1 a.mask) = .INVALID
    · simp [vertexLoopDxil, keptInputsDxil, h, ih]
    · simp [vertexLoopDxil, keptInputsDxil, h, ih, dxilAttrSize]
      omega

/-- The DXIL vertex loop assigns each emitted attribute the next sequential
byte offset. -/
theorem vertexLoopDxil_offsets (off : Nat) (l : List InputAttribute) :
    (vertexLoopDxil off l).1.map VertexAttribute.offset
      = offsetScan off ((keptInputsDxil l).map dxilAttrSize) := by
  induction l generalizing off with
  | nil => simp [vertexLoopDxil, keptInputsDxil, offsetScan]
  | cons a rest ih =>
    by_cases h : IGNITE_Map3DComponent a.componentType (popCountMin1 a.mask) = .INVALID
    · simp [vertexLoopDxil, keptInputsDxil, h, ih]
    · simp [vertexLoopDxil, keptInputsDxil, h, ih, offsetScan, dxilAttrSize]

/-- The DXIL vertex loop emits exactly the kept inputs, in order, with
their synthesized names and mapped formats. -/
theorem vertexLoopDxil_fields (off : Nat) (l : List InputAttribute) :
    (vertexLoopDxil off l).1.map (fun a => (a.name, a.format))
      = (keptInputsDxil l).map (fun i =>
          (semanticNameWithIndex i.semanticName i.semanticIndex,
           IGNITE_Map3DComponent i.componentType (popCountMin1 i.mask))) := by
  induction l generalizing off with
  | nil => simp [vertexLoopDxil, keptInputsDxil]
  | cons a rest ih =>
    by_cases h : IGNITE_Map3DComponent a.componentType (popCountMin1 a.mask) = .INVALID
    · simp [vertexLoopDxil, keptInputsDxil, h, ih]
    · simp [vertexLoopDxil, keptInputsDxil, h, ih]

/-- The DXIL vertex loop logs exactly one message per skipped input. -/
theorem vertexLoopDxil_warn_count (off : Nat) (l : List InputAttribute) :
    (vertexLoopDxil off l).2.2.length
      = (l.filter fun i =>
          decide (IGNITE_Map3DComponent i.componentType (popCountMin1 i.mask) = .INVALID)).length := by
  induction l generalizing off with
  | nil => simp [vertexLoopDxil]
  | cons a rest ih =>
    by_cases h : IGNITE_Map3DComponent a.componentType (popCountMin1 a.mask) = .INVALID
    · simp [vertexLoopDxil, h, ih]
    · simp [vertexLoopDxil, h, ih]

/-- Every message the DXIL vertex loop logs is a warning. -/
theorem vertexLoopDxil_warn_sev (off : Nat) (l : List InputAttribute) :
    ∀ msg ∈ (vertexLoopDxil off l).2.2, msg.1 = .WARNING := by
  induction l generalizing off with
  | nil => simp [vertexLoopDxil]
  | cons a rest ih =>
    by_cases h : IGNITE_Map3DComponent a.componentType (popCountMin1 a.mask) = .INVALID
    · simpa [vertexLoopDxil, h] using fun msg hm => ih _ msg hm
    · simpa [vertexLoopDxil, h] using fun msg hm => ih _ msg hm

/-- `setStride` rewrites every emitted attribute's stride to the final
accumulated offset. -/
theorem setStride_mem (s : Nat) (attrs : List VertexAttribute) :
    ∀ a ∈ setStride s attrs, a.elementStride = s := by
  intro a ha
  simp only [setStride, List.mem_map] at ha
  rcases ha with ⟨b, _, rfl⟩
  rfl

/-- `setStride` leaves the offsets unchanged. -/
theorem setStride_offsets (s : Nat) (attrs : List VertexAttribute) :
    (setStride s attrs).map VertexAttribute.offset = attrs.map VertexAttribute.offset := by
  simp [setStride, List.map_map]

/-- `setStride` leaves names and formats unchanged. -/
theorem setStride_fields (s : Nat) (attrs : List VertexAttribute) :
    (setStride s attrs).map (fun a => (a.name, a.format))
      = attrs.map (fun a => (a.name, a.format)) := by
  simp [setStride, List.map_map]

/-- The SPIR-V vertex layout: attributes are exactly the sorted stage
inputs with invalid-format entries skipped, offsets accumulate
sequentially, every stride equals the total size, and one warning is logged
per skipped input. -/
theorem spirv_vertex_layout (code : List Nat) (m : SpvModule)
    (h4 : code.length % 4 = 0) :
    (SPIRVReflect .VERTEX code (some m)).1.vertexAttributes.map (fun a => (a.name, a.format))
      = (keptInputsSpv (SPIRVReflect .VERTEX code (some m)).1.stageInputs).map
          (fun i => (i.name, i.format)) ∧
    (SPIRVReflect .VERTEX code (some m)).1.vertexAttributes.map VertexAttribute.offset
      = offsetScan 0
          ((keptInputsSpv (SPIRVReflect .VERTEX code (some m)).1.stageInputs).map attrSizeOfInput) ∧
    (∀ a ∈ (SPIRVReflect .VERTEX code (some m)).1.vertexAttributes,
      a.elementStride
        = ((keptInputsSpv (SPIRVReflect .VERTEX code (some m)).1.stageInputs).map
            attrSizeOfInput).sum) ∧
    (vertexLoopSpv 0 (SPIRVReflect .VERTEX code (some m)).1.stageInputs).2.2.length
      = ((SPIRVReflect .VERTEX code (some m)).1.stageInputs.filter
          (fun i => decide (i.format = .INVALID))).length ∧
    (∀ msg ∈ (vertexLoopSpv 0 (SPIRVReflect .VERTEX code (some m)).1.stageInputs).2.2,
      msg.1 = .WARNING) := by
  have hin : (SPIRVReflect .VERTEX code (some m)).1.stageInputs
      = collectStageEntries m.stageInputs := by
    simp [SPIRVReflect, h4]
  have hva : (SPIRVReflect .VERTEX code (some m)).1.vertexAttributes
      = setStride (vertexLoopSpv 0 (collectStageEntries m.stageInputs)).2.1
          (vertexLoopSpv 0 (collectStageEntries m.stageInputs)).1 := by
    simp [SPIRVReflect, h4]
  rw [hva, hin]
  refine ⟨?_, ?_, ?_, ?_, ?_⟩
  · rw [setStride_fields]
    exact vertexLoopSpv_fields 0 _
  · rw [setStride_offsets]
    exact vertexLoopSpv_offsets 0 _
  · intro a ha
    rw [setStride_mem _ _ a ha, vertexLoopSpv_final, Nat.zero_add]
  · exact vertexLoopSpv_warn_count 0 _
  · exact vertexLoopSpv_warn_sev 0 _

/-- The DXIL vertex layout: attributes are exactly the register-sorted
vertex inputs with invalid-format entries skipped, offsets accumulate
sequentially, every stride equals the total size, and one warning is logged
per skipped input. -/
theorem dxil_vertex_layout (code : List Nat) (d : D3DReflectionData)
    (hlen : ¬ code.length < 4) :
    (DXILReflectWin .VERTEX code (some d)).1.vertexAttributes.map (fun a => (a.name, a.format))
      = (keptInputsDxil (dxilSortedVertexInputs d)).map
          (fun i => (semanticNameWithIndex i.semanticName i.semanticIndex,
            IGNITE_Map3DComponent i.componentType (popCountMin1 i.mask))) ∧
    (DXILReflectWin .VERTEX code (some d)).1.vertexAttributes.map VertexAttribute.offset
      = offsetScan 0 ((keptInputsDxil (dxilSortedVertexInputs d)).map dxilAttrSize) ∧
    (∀ a ∈ (DXILReflectWin .VERTEX code (some d)).1.vertexAttributes,
      a.elementStride
        = ((keptInputsDxil (dxilSortedVertexInputs d)).map dxilAttrSize).sum) ∧
    (vertexLoopDxil 0 (dxilSortedVertexInputs d)).2.2.length
      = ((dxilSortedVertexInputs d).filter
          (fun i =>
            decide (IGNITE_Map3DComponent i.componentType (popCountMin1 i.mask) = .INVALID))).length ∧
    (∀ msg ∈ (vertexLoopDxil 0 (dxilSortedVertexInputs d)).2.2, msg.1 = .WARNING) := by
  have hva : (DXILReflectWin .VERTEX code (some d)).1.vertexAttributes
      = setStride (vertexLoopDxil 0 (dxilSortedVertexInputs d)).2.1
          (vertexLoopDxil 0 (dxilSortedVertexInputs d)).1 := by
    simp [DXILReflectWin, hlen]
  rw [hva]
  refine ⟨?_, ?_, ?_, ?_, ?_⟩
  · rw [setStride_fields]
    exact vertexLoopDxil_fields 0 _
  · rw [setStride_offsets]
    exact vertexLoopDxil_offsets 0 _
  · intro a ha
    rw [setStride_mem _ _ a ha, vertexLoopDxil_final, Nat.zero_add]
  · exact vertexLoopDxil_warn_count 0 _
  · exact vertexLoopDxil_warn_sev 0 _

/-- C3: in both backend paths, the vertex-attribute list is built from the
ordered stage-input list with invalid-format inputs skipped (each skip
logging a warning while reflection continues); each emitted attribute
receives the next sequential byte offset, advancing by 4 bytes times its
vector width (minimum 1, via `attrSizeOfInput`/`dxilAttrSize`); and every
emitted attribute's stride equals the sum of all emitted attributes'
component sizes, so all attributes share one identical stride value. -/
theorem vertex_attributes_offsets_and_shared_stride
    (code : List Nat) (m : SpvModule) (h4 : code.length % 4 = 0)
    (code2 : List Nat) (d : D3DReflectionData) (hlen : ¬ code2.length < 4) :
    ((SPIRVReflect .VERTEX code (some m)).1.vertexAttributes.map (fun a => (a.name, a.format))
      = (keptInputsSpv (SPIRVReflect .VERTEX code (some m)).1.stageInputs).map
          (fun i => (i.name, i.format)) ∧
     (SPIRVReflect .VERTEX code (some m)).1.vertexAttributes.map VertexAttribute.offset
      = offsetScan 0
          ((keptInputsSpv (SPIRVReflect .VERTEX code (some m)).1.stageInputs).map attrSizeOfInput) ∧
     (∀ a ∈ (SPIRVReflect .VERTEX code (some m)).1.vertexAttributes,
       a.elementStride
         = ((keptInputsSpv (SPIRVReflect .VERTEX code (some m)).1.stageInputs).map
             attrSizeOfInput).sum) ∧
     (vertexLoopSpv 0 (SPIRVReflect .VERTEX code (some m)).1.stageInputs).2.2.length
       = ((SPIRVReflect .VERTEX code (some m)).1.stageInputs.filter
           (fun i => decide (i.format = .INVALID))).length ∧
     (∀ msg ∈ (vertexLoopSpv 0 (SPIRVReflect .VERTEX code (some m)).1.stageInputs).2.2,
       msg.1 = .WARNING)) ∧
    ((DXILReflectWin .VERTEX code2 (some d)).1.vertexAttributes.map (fun a => (a.name, a.format))
      = (keptInputsDxil (dxilSortedVertexInputs d)).map
          (fun i => (semanticNameWithIndex i.semanticName i.semanticIndex,
            IGNITE_Map3DComponent i.componentType (popCountMin1 i.mask))) ∧
     (DXILReflectWin .VERTEX code2 (some d)).1.vertexAttributes.map VertexAttribute.offset
      = offsetScan 0 ((keptInputsDxil (dxilSortedVertexInputs d)).map dxilAttrSize) ∧
     (∀ a ∈ (DXILReflectWin .VERTEX code2 (some d)).1.vertexAttributes,
       a.elementStride
         = ((keptInputsDxil (dxilSortedVertexInputs d)).map dxilAttrSize).sum) ∧
     (vertexLoopDxil 0 (dxilSortedVertexInputs d)).2.2.length
       = ((dxilSortedVertexInputs d).filter
           (fun i =>
             decide (IGNITE_Map3DComponent i.componentType (popCountMin1 i.mask) = .INVALID))).length ∧
     (∀ msg ∈ (vertexLoopDxil 0 (dxilSortedVertexInputs d)).2.2, msg.1 = .WARNING)) :=
  ⟨spirv_vertex_layout code m h4, dxil_vertex_layout code2 d hlen⟩

/-- C3 witness: an empty (0-byte, trivially aligned) SPIR-V blob whose
parse result declares a float3 input at location 0 and a float2 input at
location 1, and a 4-byte DXIL blob with one two-component float input -
all shares of the shared-stride conjunct hold at these inputs. -/
theorem vertex_attributes_offsets_and_shared_stride_witness :
    (([] : List Nat).length % 4 = 0) ∧
    (¬ ([0, 0, 0, 0] : List Nat).length < 4) ∧
    (∀ a ∈ (SPIRVReflect .VERTEX []
        (some { stageInputs := [⟨"uv", 2, 1, some ⟨.FP32, 2, 1⟩⟩,
                                ⟨"pos", 1, 0, some ⟨.FP32, 3, 1⟩⟩] })).1.vertexAttributes,
      a.elementStride
        = ((keptInputsSpv (SPIRVReflect .VERTEX []
            (some { stageInputs := [⟨"uv", 2, 1, some ⟨.FP32, 2, 1⟩⟩,
                                    ⟨"pos", 1, 0, some ⟨.FP32, 3, 1⟩⟩] })).1.stageInputs).map
            attrSizeOfInput).sum) :=
  ⟨by decide, by decide,
   (vertex_attributes_offsets_and_shared_stride []
      { stageInputs := [⟨"uv", 2, 1, some ⟨.FP32, 2, 1⟩⟩,
                        ⟨"pos", 1, 0, some ⟨.FP32, 3, 1⟩⟩] }
      (by decide) [0, 0, 0, 0]
      { inputParameters := [some ⟨"POSITION", 0, 0, 3, .FLOAT32⟩] }
      (by decide)).1.2.2.1⟩
